import Mathlib

/-!
Verification of `src/starship_water_calc.py`, a straight-line calculator
that derives the water mass needed to absorb Starship reentry heat, the
number of resupply flights, and the cost.

The arithmetic of the script is embedded over `ℚ` (the Python script runs
over IEEE doubles; every claim below is about the exact real-valued
arithmetic the script transcribes, and all default constants and the
derived values are exactly representable as rationals).  Python's
`ZeroDivisionError` semantics is captured by `divE`: a division whose
denominator is zero aborts the whole run with an error, mirroring the fact
that the script has no exception handler, so a raised `ZeroDivisionError`
propagates out of the program before anything is printed.
-/

namespace StarshipWaterCalc

/-- The editable constants at the top of the script (lines 7-32).
`propellant_cost_per_flight` is a Python `int` literal; the script keeps it
integral (it is only ever multiplied by `num_flights`, itself an `int`). -/
structure Inputs where
  m_vehicle : ℚ
  v_orbital : ℚ
  fraction_max_heating : ℚ
  heat_fraction : ℚ
  temp_fraction : ℚ
  Lv : ℚ
  payload_per_flight : ℚ
  propellant_cost_per_flight : ℤ
deriving DecidableEq

/-- The literal constants of the script:
`m_vehicle = 120000`, `v_orbital = 7800`, `fraction_max_heating = 0.3`,
`heat_fraction = 0.01`, `temp_fraction = 0.8`, `Lv = 2260000`,
`payload_per_flight = 150`, `propellant_cost_per_flight = 500000`. -/
def defaults : Inputs :=
  { m_vehicle := 120000
    v_orbital := 7800
    fraction_max_heating := 3/10
    heat_fraction := 1/100
    temp_fraction := 4/5
    Lv := 2260000
    payload_per_flight := 150
    propellant_cost_per_flight := 500000 }

/-- `KE_total = 0.5 * m_vehicle * v_orbital ** 2` (line 34). -/
def KE_total (i : Inputs) : ℚ := 1/2 * i.m_vehicle * i.v_orbital ^ 2

/-- `KE_max = fraction_max_heating * KE_total` (line 37). -/
def KE_max (i : Inputs) : ℚ := i.fraction_max_heating * KE_total i

/-- `heat_max = heat_fraction * KE_max` (line 40). -/
def heat_max (i : Inputs) : ℚ := i.heat_fraction * KE_max i

/-- `heat_to_tiles_fraction = temp_fraction ** 4` (line 43). -/
def heat_to_tiles_fraction (i : Inputs) : ℚ := i.temp_fraction ^ 4

/-- `fraction_absorbed = 1 - heat_to_tiles_fraction` (line 46). -/
def fraction_absorbed (i : Inputs) : ℚ := 1 - heat_to_tiles_fraction i

/-- `energy_to_steam = fraction_absorbed * heat_max` (line 49). -/
def energy_to_steam (i : Inputs) : ℚ := fraction_absorbed i * heat_max i

/-- `m_water_kg = energy_to_steam / Lv` (line 52).  Value-level reading:
`ℚ` division totalises the `Lv = 0` case as `0`; the run-level model
`run` below accounts for the `ZeroDivisionError` instead. -/
def m_water_kg (i : Inputs) : ℚ := energy_to_steam i / i.Lv

/-- `m_water_tonnes = m_water_kg / 1000` (line 55). -/
def m_water_tonnes (i : Inputs) : ℚ := m_water_kg i / 1000

/-- `num_flights = math.ceil(m_water_tonnes / payload_per_flight)` (line 58). -/
def num_flights (i : Inputs) : ℤ := ⌈m_water_tonnes i / i.payload_per_flight⌉

/-- `total_cost = num_flights * propellant_cost_per_flight` (line 61). -/
def total_cost (i : Inputs) : ℤ := num_flights i * i.propellant_cost_per_flight

/-- `reentries_per_launch = math.floor(payload_per_flight / m_water_tonnes)`
(line 64). -/
def reentries_per_launch (i : Inputs) : ℤ :=
  ⌊i.payload_per_flight / m_water_tonnes i⌋

/-! ### String formatting

Models of the Python format conversions used in the f-strings of
lines 67-75, over exact rationals.  Python formats a float by correct
rounding of its exact value; `rne` is the round-half-to-even rule it
uses. -/

/-- Round half to even to an integer. -/
def rne (q : ℚ) : ℤ :=
  if q - ⌊q⌋ < 1/2 then ⌊q⌋
  else if 1/2 < q - ⌊q⌋ then ⌊q⌋ + 1
  else if ⌊q⌋ % 2 = 0 then ⌊q⌋ else ⌊q⌋ + 1

/-- Left-pad a numeral to two digits. -/
def pad2 (n : ℕ) : String := if n < 10 then "0" ++ toString n else toString n

/-- Decimal exponent: the `e` with `10 ^ e ≤ q < 10 ^ (e + 1)`, for `q > 0`. -/
def sciExp (q : ℚ) : ℤ :=
  let n := q.num.natAbs
  let d := q.den
  let e0 : ℤ := (Nat.log 10 n : ℤ) - Nat.log 10 d
  let ok : Bool :=
    if 0 ≤ e0 then decide (d * 10 ^ e0.toNat ≤ n) else decide (d ≤ 10 ^ (-e0).toNat * n)
  if ok then e0 else e0 - 1

/-- Exponent suffix of scientific notation: always signed, at least two digits. -/
def expStr (e : ℤ) : String := (if e < 0 then "-" else "+") ++ pad2 e.natAbs

/-- Python `.2e` format conversion. -/
def fmtSci2 (q : ℚ) : String :=
  if q = 0 then "0.00e+00"
  else
    let sign := if q < 0 then "-" else ""
    let m := |q|
    let e := sciExp m
    let s := rne (m / (10 : ℚ) ^ e * 100)
    let s2 : ℕ := if 1000 ≤ s then 100 else s.toNat
    let e2 : ℤ := if 1000 ≤ s then e + 1 else e
    sign ++ toString (s2 / 100) ++ "." ++ pad2 (s2 % 100) ++ "e" ++ expStr e2

/-- Python `.2f` format conversion. -/
def fmtFixed2 (q : ℚ) : String :=
  let s := rne (q * 100)
  let sign := if s < 0 then "-" else ""
  let n := s.natAbs
  sign ++ toString (n / 100) ++ "." ++ pad2 (n % 100)

/-- Python `.0f` format conversion (a rounded integer, no decimal point). -/
def fmtFixed0 (q : ℚ) : String := toString (rne q)

/-- Insert a comma after every third digit of a reversed digit list. -/
def group3 : List Char → List Char
  | a :: b :: c :: d :: rest => a :: b :: c :: ',' :: group3 (d :: rest)
  | l => l

/-- Python `,` format conversion of an int: thousands separators. -/
def fmtComma (n : ℤ) : String :=
  (if n < 0 then "-" else "") ++
    String.mk (group3 (toString n.natAbs).data.reverse).reverse

/-- Python `str` of a float whose value is a terminating decimal
(used for the unformatted interpolations `fraction_max_heating*100`
and `heat_fraction` inside the labels of lines 68-69). -/
def pyStr (q : ℚ) : String :=
  let sign := if q < 0 then "-" else ""
  let m := |q|
  let k := ((List.range 30).find? fun k => (m * 10 ^ k).den == 1).getD 17
  let n := (m * 10 ^ k).num.natAbs
  if k = 0 then sign ++ toString n ++ ".0"
  else
    let s := toString n
    let s := if s.length ≤ k then String.mk (List.replicate (k + 1 - s.length) '0') ++ s else s
    sign ++ s.take (s.length - k) ++ "." ++ s.drop (s.length - k)

/-! ### The printed lines (source lines 67-75) -/

/-- Line 67 of the source. -/
def line1 (i : Inputs) : String :=
  "Total kinetic energy: " ++ fmtSci2 (KE_total i) ++ " J"

/-- Line 68 of the source. -/
def line2 (i : Inputs) : String :=
  "KE during max heating (" ++ pyStr (i.fraction_max_heating * 100) ++ "%): " ++
    fmtSci2 (KE_max i) ++ " J"

/-- Line 69 of the source. -/
def line3 (i : Inputs) : String :=
  "Heat during max heating (heat_fraction " ++ pyStr i.heat_fraction ++ "): " ++
    fmtSci2 (heat_max i) ++ " J"

/-- Line 70 of the source. -/
def line4 (i : Inputs) : String :=
  "Fraction absorbed by water: " ++ fmtFixed2 (fraction_absorbed i)

/-- Line 71 of the source. -/
def line5 (i : Inputs) : String :=
  "Energy to steam: " ++ fmtSci2 (energy_to_steam i) ++ " J"

/-- Line 72 of the source. -/
def line6 (i : Inputs) : String :=
  "Required water mass: " ++ fmtFixed0 (m_water_tonnes i) ++ " metric tonnes"

/-- Line 73 of the source. -/
def line7 (i : Inputs) : String :=
  "Number of flights needed: " ++ toString (num_flights i)

/-- Line 74 of the source. -/
def line8 (i : Inputs) : String :=
  "Total cost to deliver water to orbit: $" ++ fmtComma (total_cost i) ++ " USD"

/-- Line 75 of the source. -/
def line9 (i : Inputs) : String :=
  "Reentries supplied per launch (including freighter): " ++
    toString (reentries_per_launch i)

/-- The nine output lines, in the order the source prints them. -/
def outputLines (i : Inputs) : List String :=
  [line1 i, line2 i, line3 i, line4 i, line5 i, line6 i, line7 i, line8 i,
   line9 i]

/-! ### Run-level model with Python division semantics -/

/-- The only runtime fault the script can raise. -/
inductive PyError where
  | zeroDivision
deriving DecidableEq

/-- Python division: raises `ZeroDivisionError` on a zero denominator. -/
def divE (a b : ℚ) : Except PyError ℚ :=
  if b = 0 then .error .zeroDivision else .ok (a / b)

/-- A whole run of the script.  The divisions are performed in source
order (lines 52, 55, 58, 64); an unhandled `ZeroDivisionError` aborts the
run before anything is printed (the prints of lines 67-75 all come after
the computation).  On success the nine lines are printed. -/
def run (i : Inputs) : Except PyError (List String) := do
  let mkg ← divE (energy_to_steam i) i.Lv
  let mt ← divE mkg 1000
  let nfq ← divE mt i.payload_per_flight
  let _nf : ℤ := ⌈nfq⌉
  let rq ← divE i.payload_per_flight mt
  let _r : ℤ := ⌊rq⌋
  pure (outputLines i)

/-- The default constants with `temp_fraction` set to `1.0`
(the boundary case of spec section 8). -/
def defaultsTemp1 : Inputs := { defaults with temp_fraction := 1 }

/-- The default constants with `fraction_max_heating` replaced by `x`
(used for the monotonicity property of spec section 8). -/
def setFMH (x : ℚ) : Inputs := { defaults with fraction_max_heating := x }

end StarshipWaterCalc

namespace SpecFormulas

/-!
The formula chain exactly as written in section 4.1 of the spec, to be
compared with the embedding of the source above (claim C1).
-/

open StarshipWaterCalc (Inputs)

/-- Spec: `KE_total = 0.5 * m_vehicle * v_orbital^2`. -/
def keTotal (i : Inputs) : ℚ := 0.5 * i.m_vehicle * i.v_orbital ^ 2

/-- Spec: `KE_max = fraction_max_heating * KE_total`. -/
def keMax (i : Inputs) : ℚ := i.fraction_max_heating * keTotal i

/-- Spec: `heat_max = heat_fraction * KE_max`. -/
def heatMax (i : Inputs) : ℚ := i.heat_fraction * keMax i

/-- Spec: `heat_to_tiles_fraction = temp_fraction^4`. -/
def heatToTilesFraction (i : Inputs) : ℚ := i.temp_fraction ^ 4

/-- Spec: `fraction_absorbed = 1 - heat_to_tiles_fraction`. -/
def fractionAbsorbed (i : Inputs) : ℚ := 1 - heatToTilesFraction i

/-- Spec: `energy_to_steam = fraction_absorbed * heat_max`. -/
def energyToSteam (i : Inputs) : ℚ := fractionAbsorbed i * heatMax i

/-- Spec: `m_water_kg = energy_to_steam / Lv`. -/
def mWaterKg (i : Inputs) : ℚ := energyToSteam i / i.Lv

/-- Spec: `m_water_tonnes = m_water_kg / 1000`. -/
def mWaterTonnes (i : Inputs) : ℚ := mWaterKg i / 1000

/-- Spec: `num_flights = ceiling(m_water_tonnes / payload_per_flight)`. -/
def numFlights (i : Inputs) : ℤ := ⌈mWaterTonnes i / i.payload_per_flight⌉

/-- Spec: `total_cost = num_flights * propellant_cost_per_flight`. -/
def totalCost (i : Inputs) : ℤ := numFlights i * i.propellant_cost_per_flight

/-- Spec: `reentries_per_launch = floor(payload_per_flight / m_water_tonnes)`. -/
def reentriesPerLaunch (i : Inputs) : ℤ := ⌊i.payload_per_flight / mWaterTonnes i⌋

end SpecFormulas

/-! ## Helper lemmas -/

namespace StarshipWaterCalc

/-- When every division of the script has a nonzero denominator, the run
completes and prints the nine lines. -/
theorem run_ok (i : Inputs) (hLv : i.Lv ≠ 0) (hp : i.payload_per_flight ≠ 0)
    (hm : m_water_tonnes i ≠ 0) : run i = .ok (outputLines i) := by
  have hkg : energy_to_steam i / i.Lv = m_water_kg i := rfl
  have hmt : m_water_kg i / 1000 = m_water_tonnes i := rfl
  simp [run, divE, if_neg hLv, hkg, hmt, if_neg hp, if_neg hm, Bind.bind,
    Except.bind, Pure.pure, Except.pure]

/-- When `m_water_tonnes` evaluates to zero, some division of the script
has a zero denominator and the run aborts with `ZeroDivisionError`
(whichever of the divisions at lines 52, 58 or 64 hits it first). -/
theorem run_zero (i : Inputs) (hm : m_water_tonnes i = 0) :
    run i = .error .zeroDivision := by
  by_cases hLv : i.Lv = 0
  · simp [run, divE, if_pos hLv, Bind.bind, Except.bind]
  · have hkg : energy_to_steam i / i.Lv = m_water_kg i := rfl
    have hmt : m_water_kg i / 1000 = m_water_tonnes i := rfl
    by_cases hp : i.payload_per_flight = 0
    · simp [run, divE, if_neg hLv, hkg, hmt, if_pos hp, Bind.bind, Except.bind]
    · simp [run, divE, if_neg hLv, hkg, hmt, if_neg hp, hm, Bind.bind,
        Except.bind]

/-- The exact value of `m_water_tonnes` at the default constants. -/
theorem m_water_tonnes_defaults : m_water_tonnes defaults = 5051241 / 1765625 := by
  norm_num [m_water_tonnes, m_water_kg, energy_to_steam, fraction_absorbed,
    heat_to_tiles_fraction, heat_max, KE_max, KE_total, defaults]

/-- At the boundary constants (`temp_fraction = 1.0`), no water is needed:
`m_water_tonnes` is exactly zero. -/
theorem m_water_tonnes_temp1 : m_water_tonnes defaultsTemp1 = 0 := by
  norm_num [m_water_tonnes, m_water_kg, energy_to_steam, fraction_absorbed,
    heat_to_tiles_fraction, heat_max, KE_max, KE_total, defaultsTemp1, defaults]

/-- `KE_max` as a function of `fraction_max_heating`, other constants at
their defaults. -/
theorem KE_max_setFMH (x : ℚ) : KE_max (setFMH x) = 3650400000000 * x := by
  simp [KE_max, KE_total, setFMH, defaults]; ring

/-- `heat_max` as a function of `fraction_max_heating`, other constants at
their defaults. -/
theorem heat_max_setFMH (x : ℚ) : heat_max (setFMH x) = 36504000000 * x := by
  simp [heat_max, KE_max, KE_total, setFMH, defaults]; ring

/-- `energy_to_steam` as a function of `fraction_max_heating`, other
constants at their defaults. -/
theorem energy_to_steam_setFMH (x : ℚ) :
    energy_to_steam (setFMH x) = 21551961600 * x := by
  simp [energy_to_steam, fraction_absorbed, heat_to_tiles_fraction, heat_max,
    KE_max, KE_total, setFMH, defaults]; ring

/-- `m_water_tonnes` as a function of `fraction_max_heating`, other
constants at their defaults. -/
theorem m_water_tonnes_setFMH (x : ℚ) :
    m_water_tonnes (setFMH x) = 21551961600 / 2260000000 * x := by
  simp [m_water_tonnes, m_water_kg, energy_to_steam, fraction_absorbed,
    heat_to_tiles_fraction, heat_max, KE_max, KE_total, setFMH, defaults]
  ring

end StarshipWaterCalc


/-! ## Claim theorems -/

open StarshipWaterCalc

/-- Claim C1: the program computes the derived values by exactly the
formula chain of spec section 4.1 — every derived quantity of the source
equals the corresponding spec formula, for every assignment of the input
constants for which `m_water_tonnes` is nonzero; moreover the run then
completes normally (given that `payload_per_flight` is nonzero, so that
line 58's division is defined). -/
theorem c1_formula_chain (i : Inputs) (hm : m_water_tonnes i ≠ 0) :
    KE_total i = SpecFormulas.keTotal i ∧
    KE_max i = SpecFormulas.keMax i ∧
    heat_max i = SpecFormulas.heatMax i ∧
    heat_to_tiles_fraction i = SpecFormulas.heatToTilesFraction i ∧
    fraction_absorbed i = SpecFormulas.fractionAbsorbed i ∧
    energy_to_steam i = SpecFormulas.energyToSteam i ∧
    m_water_kg i = SpecFormulas.mWaterKg i ∧
    m_water_tonnes i = SpecFormulas.mWaterTonnes i ∧
    num_flights i = SpecFormulas.numFlights i ∧
    total_cost i = SpecFormulas.totalCost i ∧
    reentries_per_launch i = SpecFormulas.reentriesPerLaunch i ∧
    (i.payload_per_flight ≠ 0 → run i = .ok (outputLines i)) := by
  have h1 : KE_total i = SpecFormulas.keTotal i := by
    norm_num [KE_total, SpecFormulas.keTotal]
  have h2 : KE_max i = SpecFormulas.keMax i := by
    rw [KE_max, SpecFormulas.keMax, h1]
  have h3 : heat_max i = SpecFormulas.heatMax i := by
    rw [heat_max, SpecFormulas.heatMax, h2]
  have h4 : heat_to_tiles_fraction i = SpecFormulas.heatToTilesFraction i := rfl
  have h5 : fraction_absorbed i = SpecFormulas.fractionAbsorbed i := rfl
  have h6 : energy_to_steam i = SpecFormulas.energyToSteam i := by
    rw [energy_to_steam, SpecFormulas.energyToSteam, h3, h5]
  have h7 : m_water_kg i = SpecFormulas.mWaterKg i := by
    rw [m_water_kg, SpecFormulas.mWaterKg, h6]
  have h8 : m_water_tonnes i = SpecFormulas.mWaterTonnes i := by
    rw [m_water_tonnes, SpecFormulas.mWaterTonnes, h7]
  have h9 : num_flights i = SpecFormulas.numFlights i := by
    rw [num_flights, SpecFormulas.numFlights, h8]
  have h10 : total_cost i = SpecFormulas.totalCost i := by
    rw [total_cost, SpecFormulas.totalCost, h9]
  have h11 : reentries_per_launch i = SpecFormulas.reentriesPerLaunch i := by
    rw [reentries_per_launch, SpecFormulas.reentriesPerLaunch, h8]
  have hLv : i.Lv ≠ 0 := by
    intro h
    exact hm (by simp [m_water_tonnes, m_water_kg, h])
  exact ⟨h1, h2, h3, h4, h5, h6, h7, h8, h9, h10, h11,
    fun hp => run_ok i hLv hp hm⟩

/-- Witness for C1 at the default constants. -/
theorem c1_witness :
    m_water_tonnes defaults ≠ 0 ∧
    num_flights defaults = SpecFormulas.numFlights defaults := by
  have hm : m_water_tonnes defaults ≠ 0 := by
    rw [m_water_tonnes_defaults]; norm_num
  exact ⟨hm, (c1_formula_chain defaults hm).2.2.2.2.2.2.2.2.1⟩

/-- Claim C2, counterexample: with the default constants except
`temp_fraction = 1.0`, `m_water_tonnes` is zero, yet the run does not
terminate with any defined, handled outcome — there is no exception
handler in the script, so the `ZeroDivisionError` of line 64 propagates
and no output list is ever produced. -/
theorem c2_counterexample :
    m_water_tonnes defaultsTemp1 = 0 ∧
    ∀ out : List String, run defaultsTemp1 ≠ Except.ok out := by
  refine ⟨m_water_tonnes_temp1, fun out h => ?_⟩
  rw [run_zero defaultsTemp1 m_water_tonnes_temp1] at h
  exact Except.noConfusion h

/-- Claim C2 as amended: whenever the input constants make
`m_water_tonnes` evaluate to zero, the division for
`reentries_per_launch` (or an earlier division of the chain, when a
degenerate constant already broke it) raises a `ZeroDivisionError` that
propagates as an unhandled arithmetic fault: the run aborts with the
error and prints nothing. -/
theorem c2_unhandled_fault (i : Inputs) (hm : m_water_tonnes i = 0) :
    run i = Except.error PyError.zeroDivision := run_zero i hm

/-- Witness for the amended C2 at the boundary constants. -/
theorem c2_witness :
    m_water_tonnes defaultsTemp1 = 0 ∧
    run defaultsTemp1 = Except.error PyError.zeroDivision :=
  ⟨m_water_tonnes_temp1, c2_unhandled_fault defaultsTemp1 m_water_tonnes_temp1⟩

/-- Claim C3: with `payload_per_flight = 150` and `m_water_tonnes`
positive, `num_flights` is the least integer greater than or equal to
`m_water_tonnes / 150`, and `reentries_per_launch` is the greatest
integer less than or equal to `150 / m_water_tonnes`. -/
theorem c3_extremal (i : Inputs) (hp : i.payload_per_flight = 150)
    (hm : 0 < m_water_tonnes i) :
    ((m_water_tonnes i / 150 ≤ (num_flights i : ℚ)) ∧
      ∀ z : ℤ, m_water_tonnes i / 150 ≤ (z : ℚ) → num_flights i ≤ z) ∧
    (((reentries_per_launch i : ℚ) ≤ 150 / m_water_tonnes i) ∧
      ∀ z : ℤ, (z : ℚ) ≤ 150 / m_water_tonnes i → z ≤ reentries_per_launch i) := by
  refine ⟨⟨?_, fun z hz => ?_⟩, ?_, fun z hz => ?_⟩
  · rw [num_flights, hp]; exact Int.le_ceil _
  · rw [num_flights, hp]; exact Int.ceil_le.mpr hz
  · rw [reentries_per_launch, hp]; exact Int.floor_le _
  · rw [reentries_per_launch, hp]; exact Int.le_floor.mpr hz

/-- Witness for C3 at the default constants. -/
theorem c3_witness :
    defaults.payload_per_flight = 150 ∧ 0 < m_water_tonnes defaults ∧
    (m_water_tonnes defaults / 150 ≤ (num_flights defaults : ℚ)) := by
  have hp : defaults.payload_per_flight = 150 := by norm_num [defaults]
  have hm : 0 < m_water_tonnes defaults := by
    rw [m_water_tonnes_defaults]; norm_num
  exact ⟨hp, hm, (c3_extremal defaults hp hm).1.1⟩

/-- Claim C4: at the literal default constants, `KE_total` is exactly
`0.5 * 120000 * 7800 ^ 2 = 3.6504e12` joules, `heat_to_tiles_fraction`
is exactly `0.8 ^ 4 = 0.4096`, and `fraction_absorbed` is exactly
`0.5904` (the rational model is exact, so no tolerance is needed). -/
theorem c4_default_energies :
    KE_total defaults = 3.6504e12 ∧
    heat_to_tiles_fraction defaults = 0.4096 ∧
    fraction_absorbed defaults = 0.5904 := by
  norm_num [KE_total, heat_to_tiles_fraction, fraction_absorbed, defaults]

/-- Claim C5: with all other constants at their defaults, each of
`KE_max`, `heat_max`, `energy_to_steam` and `m_water_tonnes` is strictly
increasing in `fraction_max_heating`. -/
theorem c5_monotone (a b : ℚ) (hab : a < b) :
    KE_max (setFMH a) < KE_max (setFMH b) ∧
    heat_max (setFMH a) < heat_max (setFMH b) ∧
    energy_to_steam (setFMH a) < energy_to_steam (setFMH b) ∧
    m_water_tonnes (setFMH a) < m_water_tonnes (setFMH b) := by
  refine ⟨?_, ?_, ?_, ?_⟩
  · rw [KE_max_setFMH, KE_max_setFMH]
    exact (mul_lt_mul_left (by norm_num)).mpr hab
  · rw [heat_max_setFMH, heat_max_setFMH]
    exact (mul_lt_mul_left (by norm_num)).mpr hab
  · rw [energy_to_steam_setFMH, energy_to_steam_setFMH]
    exact (mul_lt_mul_left (by norm_num)).mpr hab
  · rw [m_water_tonnes_setFMH, m_water_tonnes_setFMH]
    exact (mul_lt_mul_left (by norm_num)).mpr hab

/-- Witness for C5 at `fraction_max_heating` 0.3 versus 0.4. -/
theorem c5_witness :
    (3/10 : ℚ) < 4/10 ∧ KE_max (setFMH (3/10)) < KE_max (setFMH (4/10)) :=
  ⟨by norm_num, (c5_monotone (3/10) (4/10) (by norm_num)).1⟩

/-- Claim C6, counterexample: with `temp_fraction = 1.0` and the other
constants at their defaults, `fraction_absorbed` and `m_water_tonnes` are
indeed zero and the division by zero in `reentries_per_launch` is indeed
triggered — but it is not "explicitly handled": the run never yields any
output, refuting the handling part of the claim. -/
theorem c6_counterexample :
    fraction_absorbed defaultsTemp1 = 0 ∧ m_water_tonnes defaultsTemp1 = 0 ∧
    ¬ ∃ out : List String, run defaultsTemp1 = Except.ok out := by
  refine ⟨?_, m_water_tonnes_temp1, fun ⟨out, h⟩ => ?_⟩
  · norm_num [fraction_absorbed, heat_to_tiles_fraction, defaultsTemp1,
      defaults]
  · rw [run_zero defaultsTemp1 m_water_tonnes_temp1] at h
    exact Except.noConfusion h

/-- Claim C6 as amended: if `temp_fraction = 1.0` with all other
constants at their defaults, then `fraction_absorbed` is `0` and
`m_water_tonnes` is `0`, and this triggers the division-by-zero case in
`reentries_per_launch`, which is not handled: the run aborts with an
unhandled `ZeroDivisionError`. -/
theorem c6_boundary_unhandled :
    fraction_absorbed defaultsTemp1 = 0 ∧ m_water_tonnes defaultsTemp1 = 0 ∧
    run defaultsTemp1 = Except.error PyError.zeroDivision :=
  ⟨by norm_num [fraction_absorbed, heat_to_tiles_fraction, defaultsTemp1,
    defaults], m_water_tonnes_temp1,
    run_zero defaultsTemp1 m_water_tonnes_temp1⟩

/-- Claim C7: the program is deterministic — a run is a pure function of
the input constants, so two runs with identical constants produce the
same outcome and the same nine printed lines. -/
theorem c7_deterministic (i1 i2 : Inputs) (h : i1 = i2) :
    run i1 = run i2 ∧ outputLines i1 = outputLines i2 := by
  subst h; exact ⟨rfl, rfl⟩

/-- Witness for C7 at the default constants. -/
theorem c7_witness :
    run defaults = run defaults ∧ outputLines defaults = outputLines defaults :=
  c7_deterministic defaults defaults rfl

/-- Claim C8: whenever the run completes (all divisions defined), it
prints exactly nine lines, in the fixed order of the source, with the
energies formatted in 2-decimal scientific notation, `fraction_absorbed`
in fixed 2-decimal notation, the water mass as a rounded integer of
tonnes, the flight counts as plain integers, and the total cost as
thousands-separated currency — the formats carried by `line1` ... `line9`. -/
theorem c8_nine_lines (i : Inputs) (hLv : i.Lv ≠ 0)
    (hp : i.payload_per_flight ≠ 0) (hm : m_water_tonnes i ≠ 0) :
    run i = Except.ok [line1 i, line2 i, line3 i, line4 i, line5 i, line6 i,
      line7 i, line8 i, line9 i] ∧
    (outputLines i).length = 9 :=
  ⟨run_ok i hLv hp hm, rfl⟩

/-- Witness for C8 at the default constants. -/
theorem c8_witness :
    defaults.Lv ≠ 0 ∧ defaults.payload_per_flight ≠ 0 ∧
    m_water_tonnes defaults ≠ 0 ∧ (outputLines defaults).length = 9 := by
  have hm : m_water_tonnes defaults ≠ 0 := by
    rw [m_water_tonnes_defaults]; norm_num
  have hLv : defaults.Lv ≠ 0 := by norm_num [defaults]
  have hp : defaults.payload_per_flight ≠ 0 := by norm_num [defaults]
  exact ⟨hLv, hp, hm, (c8_nine_lines defaults hLv hp hm).2⟩

/-- Claim C9: with the script's literal denominators `Lv = 2260000` and
`payload_per_flight = 150` (and the literal `1000`), the divisions
computing `m_water_kg`, `m_water_tonnes` and the argument of
`num_flights` all succeed — none can raise `ZeroDivisionError`, whatever
the value of its numerator. -/
theorem c9_safe_divisions (i : Inputs) (hLv : i.Lv = 2260000)
    (hp : i.payload_per_flight = 150) :
    divE (energy_to_steam i) i.Lv = Except.ok (m_water_kg i) ∧
    divE (m_water_kg i) 1000 = Except.ok (m_water_tonnes i) ∧
    divE (m_water_tonnes i) i.payload_per_flight =
      Except.ok (m_water_tonnes i / i.payload_per_flight) := by
  refine ⟨?_, ?_, ?_⟩
  · rw [divE, if_neg (by rw [hLv]; norm_num), m_water_kg]
  · rw [divE, if_neg (by norm_num), m_water_tonnes]
  · rw [divE, if_neg (by rw [hp]; norm_num)]

/-- Witness for C9 at the default constants. -/
theorem c9_witness :
    defaults.Lv = 2260000 ∧ defaults.payload_per_flight = 150 ∧
    divE (m_water_kg defaults) 1000 = Except.ok (m_water_tonnes defaults) := by
  have hLv : defaults.Lv = 2260000 := by norm_num [defaults]
  have hp : defaults.payload_per_flight = 150 := by norm_num [defaults]
  exact ⟨hLv, hp, (c9_safe_divisions defaults hLv hp).2.1⟩

/-- Claim C10: at the default constants, `m_water_tonnes` lies strictly
between 0 and 150 (indeed between 2.86 and 2.87, approximately 2.86
tonnes), `num_flights = 1`, `total_cost = 500000` USD, and
`reentries_per_launch = 52`. -/
theorem c10_default_results :
    0 < m_water_tonnes defaults ∧ m_water_tonnes defaults < 150 ∧
    2.86 < m_water_tonnes defaults ∧ m_water_tonnes defaults < 2.87 ∧
    num_flights defaults = 1 ∧ total_cost defaults = 500000 ∧
    reentries_per_launch defaults = 52 := by
  have h := m_water_tonnes_defaults
  have hnf : num_flights defaults = 1 := by
    rw [num_flights, h, Int.ceil_eq_iff]
    norm_num [defaults]
  refine ⟨by rw [h]; norm_num, by rw [h]; norm_num, by rw [h]; norm_num,
    by rw [h]; norm_num, hnf, ?_, ?_⟩
  · rw [total_cost, hnf]; norm_num [defaults]
  · rw [reentries_per_launch, h, Int.floor_eq_iff]
    constructor
    · show ((52 : ℤ) : ℚ) ≤ _
      norm_num [defaults]
    · norm_num [defaults]
